import Mathlib

/-!
Shallow embedding of `ros/src/waypoint_updater/waypoint_updater.py` (the
local horizon engine of the Capstone self-driving-car repository), together
with theorems checking the specification's claims about it.

Modelling conventions: the source's floating-point coordinate and speed
values are embedded as exact rationals where only field arithmetic and
comparisons occur, and as real numbers wherever the source calls
`math.sqrt`; list indexing out of range (a Python `IndexError`) is totalised
with an explicit default element, and is only ever exercised in range in the
theorems below.
-/

/-- A 3D position, as read from `wp.pose.pose.position.{x,y,z}`. -/
structure Position where
  x : ℚ
  y : ℚ
  z : ℚ
deriving DecidableEq

/-- A `styx_msgs/Waypoint`: its position (`wp.pose.pose.position`) and its
target speed (`wp.twist.twist.linear.x`).  The speed is real-valued because
`decelerate_waypoints` rewrites it to a square root. -/
structure Waypoint where
  position : Position
  velocity : ℝ

/-- A `styx_msgs/Lane`: a header tag (carried through unchanged by
`publish_waypoints`) plus the ordered waypoint list. -/
structure Lane where
  header : ℕ
  waypoints : List Waypoint

/-- The position carried by a `/current_pose` message (`msg.pose.position`);
the node reads only its x and y fields. -/
structure PoseMsg where
  x : ℚ
  y : ℚ

/-- `LOOKAHEAD_WPS = 200`: number of waypoints published per tick. -/
def LOOKAHEAD_WPS : ℕ := 200

/-- `MAX_DECEL = .5` (m/s²). -/
noncomputable def MAX_DECEL : ℝ := 0.5

/-- The literal `2` subtracted in `decelerate_waypoints`
(`max(self.stopline_wp_idx - closest_idx - 2, 0)`), the spec's stop-line
buffer offset. -/
def BUFFER : ℤ := 2

/-- Default waypoint used to totalise out-of-range list indexing. -/
noncomputable def wp0 : Waypoint := ⟨⟨0, 0, 0⟩, 0⟩

/-- `waypoints[i]` on a Python list of waypoints (in-range in every use). -/
noncomputable def getWp (w : List Waypoint) (i : ℕ) : Waypoint := w.getD i wp0

/-- The speed stored at index `i`, i.e. `waypoints[i].twist.twist.linear.x`. -/
noncomputable def getVel (w : List Waypoint) (i : ℕ) : ℝ := (getWp w i).velocity

/-- Squared Euclidean distance in the (x,y) plane. -/
def sqDist (p q : ℚ × ℚ) : ℚ := (p.1 - q.1) ^ 2 + (p.2 - q.2) ^ 2

/-- Fold for `nearestIdx`: scans the remaining points, keeping the index of
the least distance seen so far; a strict comparison keeps the earliest index
on ties. -/
def nearestAux (q : ℚ × ℚ) : List (ℚ × ℚ) → ℕ → ℕ → ℚ → ℕ
  | [], _, best, _ => best
  | p :: ps, i, best, bestD =>
    if sqDist p q < bestD then nearestAux q ps (i + 1) i (sqDist p q)
    else nearestAux q ps (i + 1) best bestD

/-- Models the spec's `PathIndex.NearestIndex` query, which the source
delegates to `scipy.spatial.KDTree.query([x, y], 1)[1]` (library code):
the index of the single closest point by Euclidean distance in the (x,y)
plane, ties broken by the lowest path index.  Comparing squared distances
is equivalent to comparing Euclidean distances, so the model stays in ℚ. -/
def nearestIdx (pts : List (ℚ × ℚ)) (q : ℚ × ℚ) : ℕ :=
  match pts with
  | [] => 0
  | p :: ps => nearestAux q ps 1 0 (sqDist p q)

/-- The scalar `val = np.dot(cl_vect - prev_vect, pos_vect - cl_vect)` of
`get_closest_waypoint_idx`: the dot product of the local path direction with
the vector from the closest point to the vehicle.  `closest_idx - 1` is a
Python index, so for `closest_idx = 0` it denotes the last element. -/
def hyperplaneVal (waypoint_tree waypoints_2d : List (ℚ × ℚ)) (x y : ℚ) : ℚ :=
  let closest_idx := nearestIdx waypoint_tree (x, y)
  let closest_coord := waypoints_2d.getD closest_idx (0, 0)
  let prev_coord :=
    if closest_idx = 0 then waypoints_2d.getD (waypoints_2d.length - 1) (0, 0)
    else waypoints_2d.getD (closest_idx - 1) (0, 0)
  (closest_coord.1 - prev_coord.1) * (x - closest_coord.1) +
    (closest_coord.2 - prev_coord.2) * (y - closest_coord.2)

/-- `get_closest_waypoint_idx`: nearest index from the KD-tree query, advanced
by one (mod path length) when the dot-product test says the nearest point lies
behind the vehicle.  The source queries `self.waypoint_tree` and then reads
coordinates from `self.waypoints_2d`; both hold the same points. -/
def get_closest_waypoint_idx (waypoint_tree waypoints_2d : List (ℚ × ℚ)) (x y : ℚ) : ℕ :=
  let closest_idx := nearestIdx waypoint_tree (x, y)
  if 0 < hyperplaneVal waypoint_tree waypoints_2d x y then
    (closest_idx + 1) % waypoints_2d.length
  else closest_idx

/-- Python slice `l[a:b]` for `0 ≤ a ≤ b` (as used on waypoint lists):
drops the first `a` elements and keeps at most `b - a`, silently truncating
at the end of the list. -/
def pySlice (l : List α) (a b : ℕ) : List α := (l.drop a).take (b - a)

/-- `publish_waypoints`: the per-tick output lane, `base_waypoints` sliced
from the localized index to `closest_idx + LOOKAHEAD_WPS`, with the base
header carried through. -/
def publish_waypoints (base_waypoints : Lane) (closest_idx : ℕ) : Lane :=
  { header := base_waypoints.header,
    waypoints := pySlice base_waypoints.waypoints closest_idx (closest_idx + LOOKAHEAD_WPS) }

/-- `dl(a, b)` of `distance`: Euclidean distance between two positions.  The
squared norm is computed exactly in ℚ, then the square root is taken in ℝ. -/
noncomputable def dl (a b : Position) : ℝ :=
  Real.sqrt (((a.x - b.x) ^ 2 + (a.y - b.y) ^ 2 + (a.z - b.z) ^ 2 : ℚ) : ℝ)

/-- The loop of `distance`: `for i in range(wp1, wp2+1): dist += dl(waypoints[wp1], waypoints[i]); wp1 = i`.
The first argument is the list of remaining loop indices, then the current
`wp1` variable and the accumulated `dist`. -/
noncomputable def distanceLoop (w : List Waypoint) : List ℕ → ℕ → ℝ → ℝ
  | [], _, dist => dist
  | i :: is, wp1, dist =>
    distanceLoop w is i (dist + dl (getWp w wp1).position (getWp w i).position)

/-- `distance(waypoints, wp1, wp2)`: the source's arc-length helper.  The
Python range `range(wp1, wp2+1)` is `List.range' wp1 (wp2 + 1 - wp1)`, empty
whenever `wp1 > wp2`. -/
noncomputable def distance (waypoints : List Waypoint) (wp1 wp2 : ℕ) : ℝ :=
  distanceLoop waypoints (List.range' wp1 (wp2 + 1 - wp1)) wp1 0

/-- The braking speed `vel` computed for window position `i` inside the loop
of `decelerate_waypoints`, including the snap of speeds below 1.0 m/s to 0:
`stop_idx = max(stopline_wp_idx - closest_idx - buffer, 0)` (the source
hardcodes `buffer = 2`, the spec's tunable `BUFFER`), `dist = distance(...)`,
`vel = sqrt(2*MAX_DECEL*dist)`, snapped to `0` when `vel < 1`. -/
noncomputable def decelVel (buffer stopline_wp_idx : ℤ) (waypoints : List Waypoint)
    (closest_idx i : ℕ) : ℝ :=
  let stop_idx := (stopline_wp_idx - (closest_idx : ℤ) - buffer).toNat
  let dist := distance waypoints i stop_idx
  let vel := Real.sqrt (2 * MAX_DECEL * dist)
  if vel < 1 then 0 else vel

/-- `decelerate_waypoints`: rebuilds the window, copying each pose and
rewriting each speed to `min(vel, wp.twist.twist.linear.x)`. -/
noncomputable def decelerate_waypoints (buffer stopline_wp_idx : ℤ) (waypoints : List Waypoint)
    (closest_idx : ℕ) : List Waypoint :=
  (List.range waypoints.length).map (fun i =>
    { position := (getWp waypoints i).position,
      velocity := min (decelVel buffer stopline_wp_idx waypoints closest_idx i)
        (getWp waypoints i).velocity })

/-- The snap step of the braking curve, named for the statements below:
a computed speed strictly below 1.0 m/s becomes 0.0. -/
noncomputable def snap (v : ℝ) : ℝ := if v < 1 then 0 else v

/-- Arc length along the window from index `i` to index `j`: the sum of
consecutive Euclidean point-to-point distances, 0 when `j ≤ i`.  This is the
spec's wording of `dist`; `distance_eq_arcLength` below proves the source's
loop computes it. -/
noncomputable def arcLength (w : List Waypoint) (i j : ℕ) : ℝ :=
  ((List.range' i (j - i)).map (fun k => dl (getWp w k).position (getWp w (k + 1)).position)).sum

/-- `generate_lane`: the braking path of the per-tick lane generation.  As
written the source misspells `self` as `sef`, writes `lane - Lane()` for an
assignment and `LOOKAHEADWPS` for `LOOKAHEAD_WPS`; those names are transcribed
here to their evident referents, the reading the spec's §9 declares canonical.
A fresh `Lane()` carries a default header. -/
noncomputable def generate_lane (stopline_wp_idx : ℤ) (base_waypoints : Lane)
    (closest_idx : ℕ) : Lane :=
  let farthest_idx := closest_idx + LOOKAHEAD_WPS
  let roi_waypoints := pySlice base_waypoints.waypoints closest_idx farthest_idx
  if stopline_wp_idx = -1 ∨ (farthest_idx : ℤ) ≤ stopline_wp_idx then
    { header := 0, waypoints := roi_waypoints }
  else
    { header := 0, waypoints := decelerate_waypoints BUFFER stopline_wp_idx roi_waypoints closest_idx }

/-- The mutable fields of the `WaypointUpdater` object. -/
structure UpdaterState where
  stopline_wp_idx : ℤ
  pose : Option PoseMsg
  base_waypoints : Option Lane
  waypoints_2d : Option (List (ℚ × ℚ))
  waypoint_tree : Option (List (ℚ × ℚ))

/-- The field values set in `__init__`. -/
def initState : UpdaterState :=
  { stopline_wp_idx := -1, pose := none, base_waypoints := none,
    waypoints_2d := none, waypoint_tree := none }

/-- Python truthiness test `not self.waypoints_2d`: true for `None` and for
the empty list. -/
def pyFalsy : Option (List (ℚ × ℚ)) → Bool
  | none => true
  | some [] => true
  | some (_ :: _) => false

/-- The 2D projection built in `waypoints_cb`:
`[[w.pose.pose.position.x, w.pose.pose.position.y] for w in waypoints.waypoints]`. -/
def coords2d (lane : Lane) : List (ℚ × ℚ) :=
  lane.waypoints.map (fun w => (w.position.x, w.position.y))

/-- `KDTree(self.waypoints_2d)`: the spatial index is modelled by the list of
points it indexes; its only observable operation is `nearestIdx`. -/
def KDTree_build (pts : List (ℚ × ℚ)) : List (ℚ × ℚ) := pts

/-- `waypoints_cb`: stores the delivered lane in `base_waypoints`
unconditionally, and builds `waypoints_2d` and `waypoint_tree` only when
`not self.waypoints_2d` is true (first delivery, or an earlier empty one). -/
def waypoints_cb (s : UpdaterState) (waypoints : Lane) : UpdaterState :=
  let s1 := { s with base_waypoints := some waypoints }
  if pyFalsy s.waypoints_2d then
    { s1 with waypoints_2d := some (coords2d waypoints),
              waypoint_tree := some (KDTree_build (coords2d waypoints)) }
  else s1

/-- `pose_cb`: stores the latest pose. -/
def pose_cb (s : UpdaterState) (msg : PoseMsg) : UpdaterState := { s with pose := some msg }

/-- `traffic_cb`: stores the delivered stop-line index, with no validation. -/
def traffic_cb (s : UpdaterState) (msg : ℤ) : UpdaterState := { s with stopline_wp_idx := msg }

/-- One iteration of `loop`: when both a pose and base waypoints are present,
localize and publish; otherwise do nothing.  The second component is the lane
published this tick, if any (`None` also stands for the `AttributeError` a
tick would raise before `waypoint_tree` exists).  The first component is the
state after the tick. -/
def tick (s : UpdaterState) : UpdaterState × Option Lane :=
  match s.pose, s.base_waypoints with
  | some msg, some bw =>
    match s.waypoint_tree, s.waypoints_2d with
    | some tree, some w2d =>
      (s, some (publish_waypoints bw (get_closest_waypoint_idx tree w2d msg.x msg.y)))
    | _, _ => (s, none)
  | _, _ => (s, none)

/-- A path point on the x-axis at abscissa `xv` with nominal speed 10 m/s,
as in the spec's concrete scenario. -/
noncomputable def P (xv : ℚ) : Waypoint := ⟨⟨xv, 0, 0⟩, 10⟩

/-- The scenario's global path: 5 collinear points at x = 0,1,2,3,4. -/
noncomputable def path5 : List Waypoint := [P 0, P 1, P 2, P 3, P 4]

/-- The scenario's global path as a `Lane` (arbitrary header tag 7). -/
noncomputable def lane5 : Lane := ⟨7, path5⟩

/-- The 2D coordinate list of the scenario path. -/
noncomputable def w2d5 : List (ℚ × ℚ) := coords2d lane5

/-- The scenario window of points 1, 2, 3 (`BuildWindow` with N = 3 from
localized index 1). -/
noncomputable def win3 : List Waypoint := [P 1, P 2, P 3]

/-- The scenario window after `decelerate_waypoints` with `BUFFER = 0`,
`stopLineIdx = 3`, localized index 1. -/
noncomputable def decel5 : List Waypoint := decelerate_waypoints 0 3 win3 1

/-- An engine state reached by delivering the scenario path, a pose exactly on
point 1, and stop-line index 3. -/
noncomputable def scenarioState : UpdaterState :=
  traffic_cb (pose_cb (waypoints_cb initState lane5) ⟨1, 0⟩) 3

/-- A waypoint at abscissa `xv` with an arbitrary nominal speed `v`. -/
noncomputable def Q (xv : ℚ) (v : ℝ) : Waypoint := ⟨⟨xv, 0, 0⟩, v⟩

/-- A window whose original speeds increase along the path (and end negative):
used to refute braking monotonicity of the outputs as literally claimed. -/
noncomputable def cexW : List Waypoint := [Q 0 1, Q 1 10, Q 2 10, Q 3 (-10)]

/-- `cexW` after the braking rewrite with stop line 5 and localized index 0
(window-local stop offset 3). -/
noncomputable def cexD : List Waypoint := decelerate_waypoints BUFFER 5 cexW 0

/-- A constant-speed window for the amended monotonicity statement. -/
noncomputable def monoW : List Waypoint := [P 0, P 1, P 2, P 3]

/-- A one-point lane delivered first in the redelivery counterexample. -/
noncomputable def laneA : Lane := ⟨0, [Q 0 10]⟩

/-- A different one-point lane delivered second. -/
noncomputable def laneB : Lane := ⟨0, [⟨⟨1, 1, 0⟩, 10⟩]⟩

/-- A `Lane` with zero points. -/
def emptyLane : Lane := ⟨0, []⟩

/-- A one-point path used to exercise the length-1 edge case of `Resolve`. -/
def pts1 : List (ℚ × ℚ) := [(0, 0)]

/-! Helper lemmas about the arc-length loop. -/

lemma dl_nonneg (a b : Position) : 0 ≤ dl a b := Real.sqrt_nonneg _

lemma dl_self (a : Position) : dl a a = 0 := by
  simp [dl]

lemma distanceLoop_range' (w : List Waypoint) :
    ∀ (m p : ℕ) (acc : ℝ),
      distanceLoop w (List.range' (p + 1) m) p acc =
        acc + ((List.range' p m).map
          (fun k => dl (getWp w k).position (getWp w (k + 1)).position)).sum := by
  intro m
  induction m with
  | zero => intro p acc; simp [distanceLoop]
  | succ n ih =>
    intro p acc
    rw [List.range'_succ, List.range'_succ]
    simp only [distanceLoop, List.map_cons, List.sum_cons]
    rw [ih (p + 1) (acc + dl (getWp w p).position (getWp w (p + 1)).position)]
    ring

lemma distance_eq_arcLength (w : List Waypoint) (i j : ℕ) :
    distance w i j = arcLength w i j := by
  rcases le_or_lt i j with h | h
  · have hm : j + 1 - i = (j - i) + 1 := by omega
    rw [distance, arcLength, hm, List.range'_succ]
    simp only [distanceLoop]
    rw [distanceLoop_range' w (j - i) i (0 + dl (getWp w i).position (getWp w i).position)]
    rw [dl_self]
    ring
  · have hm : j + 1 - i = 0 := by omega
    have hm2 : j - i = 0 := by omega
    rw [distance, arcLength, hm, hm2]
    simp [distanceLoop]

lemma arcLength_nonneg (w : List Waypoint) (i j : ℕ) : 0 ≤ arcLength w i j := by
  apply List.sum_nonneg
  intro x hx
  rcases List.mem_map.1 hx with ⟨k, _, rfl⟩
  exact dl_nonneg _ _

lemma arcLength_zero_of_le (w : List Waypoint) (i j : ℕ) (h : j ≤ i) :
    arcLength w i j = 0 := by
  have : j - i = 0 := by omega
  simp [arcLength, this]

lemma arcLength_step (w : List Waypoint) (i j : ℕ) (h : i < j) :
    arcLength w i j = dl (getWp w i).position (getWp w (i + 1)).position + arcLength w (i + 1) j := by
  have hm : j - i = (j - (i + 1)) + 1 := by omega
  rw [arcLength, hm, List.range'_succ]
  simp [arcLength]

lemma arcLength_anti (w : List Waypoint) (i i' j : ℕ) (h1 : i ≤ i') (h2 : i' ≤ j) :
    arcLength w i' j ≤ arcLength w i j := by
  induction i' , h1 using Nat.le_induction with
  | base => exact le_rfl
  | succ k hk ih =>
    have hkj : k < j := by omega
    calc arcLength w (k + 1) j ≤ arcLength w k j := by
          rw [arcLength_step w k j hkj]
          have := dl_nonneg (getWp w k).position (getWp w (k + 1)).position
          linarith
      _ ≤ arcLength w i j := ih (by omega)

lemma distance_zero_of_le (w : List Waypoint) (i j : ℕ) (h : j ≤ i) :
    distance w i j = 0 := by
  rw [distance_eq_arcLength]
  exact arcLength_zero_of_le w i j h

/-! Helper lemmas about `decelerate_waypoints`. -/

lemma length_decelerate (buffer stopline : ℤ) (w : List Waypoint) (c : ℕ) :
    (decelerate_waypoints buffer stopline w c).length = w.length := by
  simp [decelerate_waypoints]

lemma getWp_decelerate (buffer stopline : ℤ) (w : List Waypoint) (c i : ℕ)
    (hi : i < w.length) :
    getWp (decelerate_waypoints buffer stopline w c) i =
      { position := (getWp w i).position,
        velocity := min (decelVel buffer stopline w c i) (getWp w i).velocity } := by
  unfold getWp decelerate_waypoints
  rw [List.getD_eq_getElem?_getD, List.getElem?_map, List.getElem?_range hi]
  rfl

lemma getVel_decelerate (buffer stopline : ℤ) (w : List Waypoint) (c i : ℕ)
    (hi : i < w.length) :
    getVel (decelerate_waypoints buffer stopline w c) i =
      min (decelVel buffer stopline w c i) (getVel w i) := by
  unfold getVel
  rw [getWp_decelerate buffer stopline w c i hi]

lemma decelVel_eq_snap (buffer stopline : ℤ) (w : List Waypoint) (c i : ℕ) :
    decelVel buffer stopline w c i =
      snap (Real.sqrt (2 * MAX_DECEL *
        distance w i (stopline - (c : ℤ) - buffer).toNat)) := rfl

lemma decelVel_past (buffer stopline : ℤ) (w : List Waypoint) (c i : ℕ)
    (h : (stopline - (c : ℤ) - buffer).toNat ≤ i) :
    decelVel buffer stopline w c i = 0 := by
  rw [decelVel_eq_snap, distance_zero_of_le w i _ h]
  norm_num [snap, Real.sqrt_zero]

lemma snap_mono {a b : ℝ} (h : a ≤ b) : snap a ≤ snap b := by
  unfold snap
  split
  · split
    · exact le_refl 0
    · next h2 => linarith
  · next h1 =>
    split
    · next h2 => linarith
    · exact h

/-! Helper lemma about the tick loop. -/

lemma tick_fst (s : UpdaterState) : (tick s).fst = s := by
  rcases s with ⟨sl, p, bw, w2, wt⟩
  rcases p with _ | p <;> rcases bw with _ | bw <;>
    rcases wt with _ | wt <;> rcases w2 with _ | w2 <;> rfl

/-! Concrete evaluations for the spec's scenario and the counterexamples. -/

lemma closest5 : get_closest_waypoint_idx w2d5 w2d5 1 0 = 1 := by
  norm_num [get_closest_waypoint_idx, hyperplaneVal, nearestIdx, nearestAux, sqDist,
    w2d5, coords2d, lane5, path5, P, List.getD]

lemma distance_win3_0 : distance win3 0 2 = 2 := by
  show 0 + dl (P 1).position (P 1).position + dl (P 1).position (P 2).position
      + dl (P 2).position (P 3).position = 2
  rw [dl_self]
  norm_num [dl, P, Real.sqrt_one]

lemma distance_win3_1 : distance win3 1 2 = 1 := by
  show 0 + dl (P 2).position (P 2).position + dl (P 2).position (P 3).position = 1
  rw [dl_self]
  norm_num [dl, P, Real.sqrt_one]

lemma distance_win3_2 : distance win3 2 2 = 0 := by
  show 0 + dl (P 3).position (P 3).position = 0
  rw [dl_self]
  norm_num

lemma distance_cexW_0 : distance cexW 0 3 = 3 := by
  show 0 + dl (Q 0 1).position (Q 0 1).position + dl (Q 0 1).position (Q 1 10).position
      + dl (Q 1 10).position (Q 2 10).position
      + dl (Q 2 10).position (Q 3 (-10)).position = 3
  rw [dl_self]
  norm_num [dl, Q, Real.sqrt_one]

lemma distance_cexW_1 : distance cexW 1 3 = 2 := by
  show 0 + dl (Q 1 10).position (Q 1 10).position + dl (Q 1 10).position (Q 2 10).position
      + dl (Q 2 10).position (Q 3 (-10)).position = 2
  rw [dl_self]
  norm_num [dl, Q, Real.sqrt_one]

lemma one_le_sqrt2 : (1 : ℝ) ≤ Real.sqrt 2 := by
  rw [show (1 : ℝ) = Real.sqrt 1 from Real.sqrt_one.symm]
  exact Real.sqrt_le_sqrt (by norm_num)

lemma one_le_sqrt3 : (1 : ℝ) ≤ Real.sqrt 3 := by
  rw [show (1 : ℝ) = Real.sqrt 1 from Real.sqrt_one.symm]
  exact Real.sqrt_le_sqrt (by norm_num)

lemma sqrt2_le_ten : Real.sqrt 2 ≤ 10 := by
  nlinarith [Real.sq_sqrt (show (0:ℝ) ≤ 2 by norm_num), Real.sqrt_nonneg 2]

lemma sqrt3_le_ten : Real.sqrt 3 ≤ 10 := by
  nlinarith [Real.sq_sqrt (show (0:ℝ) ≤ 3 by norm_num), Real.sqrt_nonneg 3]

lemma sqrt2_gt : (1.41 : ℝ) < Real.sqrt 2 := by
  nlinarith [Real.sq_sqrt (show (0:ℝ) ≤ 2 by norm_num), Real.sqrt_nonneg 2]

lemma sqrt2_lt : Real.sqrt 2 < 1.42 := by
  nlinarith [Real.sq_sqrt (show (0:ℝ) ≤ 2 by norm_num), Real.sqrt_nonneg 2]

lemma one_lt_sqrt2 : (1 : ℝ) < Real.sqrt 2 := lt_of_lt_of_le (by norm_num) sqrt2_gt.le

lemma decelVel5_0 : decelVel 0 3 win3 1 0 = Real.sqrt 2 := by
  rw [decelVel_eq_snap]
  have h1 : ((3 : ℤ) - ((1 : ℕ) : ℤ) - 0).toNat = 2 := by decide
  rw [h1, distance_win3_0, show 2 * MAX_DECEL * 2 = 2 by norm_num [MAX_DECEL]]
  unfold snap
  rw [if_neg (not_lt.2 one_le_sqrt2)]

lemma decelVel5_1 : decelVel 0 3 win3 1 1 = 1 := by
  rw [decelVel_eq_snap]
  have h1 : ((3 : ℤ) - ((1 : ℕ) : ℤ) - 0).toNat = 2 := by decide
  rw [h1, distance_win3_1, show 2 * MAX_DECEL * 1 = 1 by norm_num [MAX_DECEL],
    Real.sqrt_one]
  unfold snap
  rw [if_neg (lt_irrefl 1)]

lemma decelVel5_2 : decelVel 0 3 win3 1 2 = 0 := by
  rw [decelVel_eq_snap]
  have h1 : ((3 : ℤ) - ((1 : ℕ) : ℤ) - 0).toNat = 2 := by decide
  rw [h1, distance_win3_2, show 2 * MAX_DECEL * 0 = 0 by norm_num [MAX_DECEL],
    Real.sqrt_zero]
  unfold snap
  rw [if_pos (by norm_num)]

lemma getVel_decel5_0 : getVel decel5 0 = Real.sqrt 2 := by
  show getVel (decelerate_waypoints 0 3 win3 1) 0 = Real.sqrt 2
  rw [getVel_decelerate 0 3 win3 1 0 (by norm_num [win3]), decelVel5_0,
    show getVel win3 0 = 10 from rfl]
  exact min_eq_left sqrt2_le_ten

lemma getVel_decel5_1 : getVel decel5 1 = 1 := by
  show getVel (decelerate_waypoints 0 3 win3 1) 1 = 1
  rw [getVel_decelerate 0 3 win3 1 1 (by norm_num [win3]), decelVel5_1,
    show getVel win3 1 = 10 from rfl]
  exact min_eq_left (by norm_num)

lemma getVel_decel5_2 : getVel decel5 2 = 0 := by
  show getVel (decelerate_waypoints 0 3 win3 1) 2 = 0
  rw [getVel_decelerate 0 3 win3 1 2 (by norm_num [win3]), decelVel5_2,
    show getVel win3 2 = 10 from rfl]
  exact min_eq_left (by norm_num)

lemma getVel_cexD_0 : getVel cexD 0 = 1 := by
  show getVel (decelerate_waypoints BUFFER 5 cexW 0) 0 = 1
  rw [getVel_decelerate BUFFER 5 cexW 0 0 (by norm_num [cexW]), decelVel_eq_snap]
  have h1 : ((5 : ℤ) - ((0 : ℕ) : ℤ) - BUFFER).toNat = 3 := by decide
  rw [h1, distance_cexW_0, show 2 * MAX_DECEL * 3 = 3 by norm_num [MAX_DECEL]]
  unfold snap
  rw [if_neg (not_lt.2 one_le_sqrt3), show getVel cexW 0 = 1 from rfl]
  exact min_eq_right one_le_sqrt3

lemma getVel_cexD_1 : getVel cexD 1 = Real.sqrt 2 := by
  show getVel (decelerate_waypoints BUFFER 5 cexW 0) 1 = Real.sqrt 2
  rw [getVel_decelerate BUFFER 5 cexW 0 1 (by norm_num [cexW]), decelVel_eq_snap]
  have h1 : ((5 : ℤ) - ((0 : ℕ) : ℤ) - BUFFER).toNat = 3 := by decide
  rw [h1, distance_cexW_1, show 2 * MAX_DECEL * 2 = 2 by norm_num [MAX_DECEL]]
  unfold snap
  rw [if_neg (not_lt.2 one_le_sqrt2), show getVel cexW 1 = 10 from rfl]
  exact min_eq_left sqrt2_le_ten

lemma getVel_cexD_3 : getVel cexD 3 = -10 := by
  show getVel (decelerate_waypoints BUFFER 5 cexW 0) 3 = -10
  rw [getVel_decelerate BUFFER 5 cexW 0 3 (by norm_num [cexW]),
    decelVel_past BUFFER 5 cexW 0 3 (by norm_num [BUFFER]),
    show getVel cexW 3 = -10 from rfl]
  exact min_eq_right (by norm_num)

lemma getVel_monoW : ∀ k, k < 4 → getVel monoW k = 10 := by
  intro k hk
  interval_cases k <;> rfl

/-! The claims. -/

/-- Claim C1: for every window, localized index and active stop-line index
(window point and stop offset in range), `decelerate_waypoints` keeps the
window length and rewrites the speed of window point `i` to
`min(sqrt(2 * MAX_DECEL * dist_i), originalSpeed[i])`, where `dist_i` is the
arc length from point `i` to the stop offset
`max(stopLineIdx - localizedIdx - BUFFER, 0)` and the square root is snapped
to 0 when it is below 1.0 m/s; in particular no output speed exceeds the
corresponding original target speed. -/
theorem decelerate_braking_formula (stopline : ℤ) (closest : ℕ) (w : List Waypoint) (i : ℕ)
    (hi : i < w.length)
    (hs : (max (stopline - (closest : ℤ) - BUFFER) 0).toNat < w.length) :
    (decelerate_waypoints BUFFER stopline w closest).length = w.length ∧
    getVel (decelerate_waypoints BUFFER stopline w closest) i =
      min (snap (Real.sqrt (2 * MAX_DECEL *
        arcLength w i (max (stopline - (closest : ℤ) - BUFFER) 0).toNat)))
        (getVel w i) ∧
    getVel (decelerate_waypoints BUFFER stopline w closest) i ≤ getVel w i := by
  have hmax : (max (stopline - (closest : ℤ) - BUFFER) 0).toNat
      = (stopline - (closest : ℤ) - BUFFER).toNat := by omega
  refine ⟨length_decelerate _ _ _ _, ?_, ?_⟩
  · rw [getVel_decelerate _ _ _ _ _ hi, decelVel_eq_snap, hmax, distance_eq_arcLength]
  · rw [getVel_decelerate _ _ _ _ _ hi]
    exact min_le_right _ _

/-- Witness for C1 at the scenario window, stop line 3, localized index 1,
window point 0. -/
theorem decelerate_braking_formula_witness :
    (0 < win3.length ∧ (max ((3 : ℤ) - ((1 : ℕ) : ℤ) - BUFFER) 0).toNat < win3.length) ∧
    ((decelerate_waypoints BUFFER 3 win3 1).length = win3.length ∧
     getVel (decelerate_waypoints BUFFER 3 win3 1) 0 =
       min (snap (Real.sqrt (2 * MAX_DECEL *
         arcLength win3 0 (max ((3 : ℤ) - ((1 : ℕ) : ℤ) - BUFFER) 0).toNat)))
         (getVel win3 0) ∧
     getVel (decelerate_waypoints BUFFER 3 win3 1) 0 ≤ getVel win3 0) :=
  ⟨⟨by norm_num [win3], by norm_num [win3, BUFFER]⟩,
   decelerate_braking_formula 3 1 win3 0 (by norm_num [win3]) (by norm_num [win3, BUFFER])⟩

/-- Claim C2: for every non-empty path and every pose, the localizer returns
the KD-tree nearest index, advanced by one modulo the path length exactly
when the hyperplane dot product is strictly positive (and kept otherwise);
for a path of length 1 it returns index 0. -/
theorem resolve_forward_bias (pts : List (ℚ × ℚ)) (x y : ℚ) (h : pts ≠ []) :
    (get_closest_waypoint_idx pts pts x y =
      if 0 < hyperplaneVal pts pts x y then (nearestIdx pts (x, y) + 1) % pts.length
      else nearestIdx pts (x, y)) ∧
    (pts.length = 1 → get_closest_waypoint_idx pts pts x y = 0) := by
  refine ⟨rfl, ?_⟩
  intro hlen
  rcases pts with _ | ⟨p, ps⟩
  · simp at hlen
  · rcases ps with _ | ⟨q, qs⟩
    · simp [get_closest_waypoint_idx, nearestIdx, nearestAux]
    · simp at hlen

/-- Witness for C2 on a one-point path. -/
theorem resolve_forward_bias_witness :
    pts1 ≠ [] ∧ get_closest_waypoint_idx pts1 pts1 5 7 = 0 :=
  ⟨by simp [pts1], (resolve_forward_bias pts1 5 7 (by simp [pts1])).2 (by simp [pts1])⟩

/-- Claim C3: for every built path and valid localized index, the published
window is the ordered slice of the base waypoints from `closest_idx` up to
(but excluding) `closest_idx + LOOKAHEAD_WPS`, truncated without wraparound:
its length is `min LOOKAHEAD_WPS (len - closest_idx)` (hence at most
`LOOKAHEAD_WPS`), and the element at window position `k` is the base waypoint
at path-order index `closest_idx + k`, with `k < LOOKAHEAD_WPS`. -/
theorem publish_window_bound (bw : Lane) (closest : ℕ) (h : closest < bw.waypoints.length) :
    (publish_waypoints bw closest).waypoints.length
        = min LOOKAHEAD_WPS (bw.waypoints.length - closest) ∧
    (publish_waypoints bw closest).waypoints.length ≤ LOOKAHEAD_WPS ∧
    ∀ k, k < (publish_waypoints bw closest).waypoints.length →
      getWp (publish_waypoints bw closest).waypoints k = getWp bw.waypoints (closest + k)
        ∧ k < LOOKAHEAD_WPS := by
  have hslice : (publish_waypoints bw closest).waypoints
      = (bw.waypoints.drop closest).take LOOKAHEAD_WPS := by
    simp [publish_waypoints, pySlice]
  have hlen : (publish_waypoints bw closest).waypoints.length
      = min LOOKAHEAD_WPS (bw.waypoints.length - closest) := by
    rw [hslice, List.length_take, List.length_drop]
  refine ⟨hlen, ?_, ?_⟩
  · rw [hlen]; exact min_le_left _ _
  · intro k hk
    rw [hlen] at hk
    have hk1 : k < LOOKAHEAD_WPS := lt_of_lt_of_le hk (min_le_left _ _)
    refine ⟨?_, hk1⟩
    rw [hslice]
    unfold getWp
    rw [List.getD_eq_getElem?_getD, List.getD_eq_getElem?_getD,
      List.getElem?_take_of_lt hk1, List.getElem?_drop]

/-- Witness for C3 on the scenario path at localized index 1, window
position 0. -/
theorem publish_window_bound_witness :
    1 < lane5.waypoints.length ∧
    (publish_waypoints lane5 1).waypoints.length
        = min LOOKAHEAD_WPS (lane5.waypoints.length - 1) ∧
    (publish_waypoints lane5 1).waypoints.length ≤ LOOKAHEAD_WPS ∧
    (getWp (publish_waypoints lane5 1).waypoints 0 = getWp lane5.waypoints (1 + 0)
      ∧ 0 < LOOKAHEAD_WPS) :=
  ⟨by norm_num [lane5, path5],
   (publish_window_bound lane5 1 (by norm_num [lane5, path5])).1,
   (publish_window_bound lane5 1 (by norm_num [lane5, path5])).2.1,
   (publish_window_bound lane5 1 (by norm_num [lane5, path5])).2.2 0
     (by norm_num [publish_waypoints, pySlice, lane5, path5, LOOKAHEAD_WPS])⟩

/-- Claim C4 (code bug): in the scenario state the stop line 3 is active
(`≠ -1`) and inside the window (`< closest + LOOKAHEAD_WPS`), yet the tick
publishes the raw slice with the original speeds; the braking rewrite is
never applied because `generate_lane` is dead code (spelled `sef`,
`lane - Lane()`, `LOOKAHEADWPS` in the source) and `publish_waypoints`
ignores `stopline_wp_idx` entirely. -/
theorem tick_never_brakes :
    ((3 : ℤ) ≠ -1 ∧ (3 : ℤ) < ((1 + LOOKAHEAD_WPS : ℕ) : ℤ)) ∧
    scenarioState.stopline_wp_idx = 3 ∧
    ((tick scenarioState).snd.map (fun lane => lane.waypoints.map Waypoint.velocity))
      = some [10, 10, 10, 10] ∧
    (pySlice path5 1 (1 + LOOKAHEAD_WPS)).map Waypoint.velocity = [10, 10, 10, 10] := by
  refine ⟨⟨by norm_num, by norm_num [LOOKAHEAD_WPS]⟩, rfl, ?_, rfl⟩
  have h3 : (tick scenarioState).snd
      = some (publish_waypoints lane5 (get_closest_waypoint_idx w2d5 w2d5 1 0)) := rfl
  rw [h3, closest5]
  rfl

/-- Claim C5 counterexample: in the spec's concrete scenario the middle window
point receives `dist = 1`, hence `vel = sqrt(1) = 1.0`; the source's strict
test `vel < 1.0` does not snap it, so its output speed is 1, not the claimed
0. -/
theorem scenario_snap_counterexample : getVel decel5 1 ≠ 0 := by
  rw [getVel_decel5_1]
  norm_num

/-- Claim C5 amended: in the concrete scenario, `Resolve` returns 1, the
window is points [1,2,3], the window-local stop offset is 2, the arc
distances are [2,1,0], and the output speeds are `[sqrt 2, 1.0, 0]` (with
`1.41 < sqrt 2 < 1.42`; the point with computed speed `sqrt(1) = 1.0` is
kept at 1.0 because the snap applies only strictly below 1.0), each capped
at the original 10. -/
theorem scenario_concrete_amended :
    get_closest_waypoint_idx w2d5 w2d5 1 0 = 1 ∧
    pySlice path5 1 (1 + 3) = win3 ∧
    (max ((3 : ℤ) - 1 - 0) 0).toNat = 2 ∧
    distance win3 0 2 = 2 ∧ distance win3 1 2 = 1 ∧ distance win3 2 2 = 0 ∧
    getVel decel5 0 = Real.sqrt 2 ∧
    (1.41 : ℝ) < Real.sqrt 2 ∧ Real.sqrt 2 < 1.42 ∧
    getVel decel5 1 = 1 ∧ getVel decel5 2 = 0 ∧
    getVel decel5 0 ≤ 10 ∧ getVel decel5 1 ≤ 10 ∧ getVel decel5 2 ≤ 10 :=
  ⟨closest5, rfl, by decide, distance_win3_0, distance_win3_1, distance_win3_2,
   getVel_decel5_0, sqrt2_gt, sqrt2_lt, getVel_decel5_1, getVel_decel5_2,
   by rw [getVel_decel5_0]; exact sqrt2_le_ten,
   by rw [getVel_decel5_1]; norm_num,
   by rw [getVel_decel5_2]; norm_num⟩

/-- Claim C10: a tick of the publish path is read-only on the engine state:
whenever a pose and a base path are present, the state after the tick has
the same pose, base path (with its speeds), 2D coordinate list, spatial
index, and stop-line index. -/
theorem tick_readonly (s : UpdaterState)
    (h1 : s.pose.isSome = true) (h2 : s.base_waypoints.isSome = true) :
    (tick s).fst.pose = s.pose ∧
    (tick s).fst.base_waypoints = s.base_waypoints ∧
    (tick s).fst.waypoints_2d = s.waypoints_2d ∧
    (tick s).fst.waypoint_tree = s.waypoint_tree ∧
    (tick s).fst.stopline_wp_idx = s.stopline_wp_idx := by
  rw [tick_fst]
  exact ⟨rfl, rfl, rfl, rfl, rfl⟩

/-- Witness for C10 at the reachable scenario state. -/
theorem tick_readonly_witness :
    (scenarioState.pose.isSome = true ∧ scenarioState.base_waypoints.isSome = true) ∧
    ((tick scenarioState).fst.pose = scenarioState.pose ∧
     (tick scenarioState).fst.base_waypoints = scenarioState.base_waypoints ∧
     (tick scenarioState).fst.waypoints_2d = scenarioState.waypoints_2d ∧
     (tick scenarioState).fst.waypoint_tree = scenarioState.waypoint_tree ∧
     (tick scenarioState).fst.stopline_wp_idx = scenarioState.stopline_wp_idx) :=
  ⟨⟨rfl, rfl⟩, tick_readonly scenarioState rfl rfl⟩

/-- Claim C6 counterexample: delivering a different lane after the first
build changes the stored path — `waypoints_cb` assigns `base_waypoints`
unconditionally, outside the build-once guard. -/
theorem redelivery_overwrites_path :
    (waypoints_cb (waypoints_cb initState laneA) laneB).base_waypoints
      ≠ (waypoints_cb initState laneA).base_waypoints := by
  intro hcontra
  have h1 : (waypoints_cb (waypoints_cb initState laneA) laneB).base_waypoints
      = some laneB := rfl
  have h2 : (waypoints_cb initState laneA).base_waypoints = some laneA := rfl
  rw [h1, h2] at hcontra
  have hBA : laneB = laneA := Option.some.inj hcontra
  have hx : (1 : ℚ) = 0 :=
    congrArg (fun l => (l.waypoints.getD 0 wp0).position.x) hBA
  norm_num at hx

/-- Claim C6 amended: after the first successful build (2D list non-falsy), a
subsequent delivery leaves the 2D coordinate list, the spatial index, the
pose and the stop-line index unchanged and never rebuilds, but it overwrites
the stored path with the newly delivered lane; the whole state is unchanged
exactly when the redelivered lane equals the stored one. -/
theorem redelivery_after_build_amended (s : UpdaterState) (lane : Lane)
    (h : pyFalsy s.waypoints_2d = false) :
    (waypoints_cb s lane).waypoints_2d = s.waypoints_2d ∧
    (waypoints_cb s lane).waypoint_tree = s.waypoint_tree ∧
    (waypoints_cb s lane).pose = s.pose ∧
    (waypoints_cb s lane).stopline_wp_idx = s.stopline_wp_idx ∧
    (waypoints_cb s lane).base_waypoints = some lane ∧
    (s.base_waypoints = some lane → waypoints_cb s lane = s) := by
  have hcb : waypoints_cb s lane = { s with base_waypoints := some lane } := by
    unfold waypoints_cb
    rw [h]
    simp
  rw [hcb]
  refine ⟨rfl, rfl, rfl, rfl, rfl, ?_⟩
  intro hbase
  cases s
  simp_all

/-- Witness for C6 at a built one-point state redelivering the same lane. -/
theorem redelivery_after_build_amended_witness :
    pyFalsy (waypoints_cb initState laneA).waypoints_2d = false ∧
    waypoints_cb (waypoints_cb initState laneA) laneA = waypoints_cb initState laneA :=
  ⟨rfl,
   (redelivery_after_build_amended (waypoints_cb initState laneA) laneA rfl).2.2.2.2.2 rfl⟩

/-- Claim C7 (code bug): a delivery of a zero-point path is not rejected —
`waypoints_cb` stores the empty lane and builds an empty 2D coordinate list
(and hands the empty list to the index build), so the engine does not remain
Uninitialized. -/
theorem empty_path_accepted :
    (waypoints_cb initState emptyLane).base_waypoints = some emptyLane ∧
    (waypoints_cb initState emptyLane).waypoints_2d = some [] ∧
    (waypoints_cb initState emptyLane).base_waypoints ≠ none := by
  refine ⟨rfl, rfl, ?_⟩
  intro hc
  rw [show (waypoints_cb initState emptyLane).base_waypoints = some emptyLane from rfl] at hc
  exact Option.noConfusion hc

/-- Claim C8 (code bug): the stop-line index -5 lies outside `[0, len(path))`
and is not caught by the passthrough condition of `generate_lane` (the
canonical braking path), so the window is run through the braking rewrite and
every published speed is commanded to 0 — not the unchanged original speeds
the claim requires. -/
theorem invalid_stopline_brakes :
    (((-5 : ℤ) < 0 ∨ ((path5.length : ℕ) : ℤ) ≤ -5) ∧
     ¬ ((-5 : ℤ) = -1 ∨ ((1 + LOOKAHEAD_WPS : ℕ) : ℤ) ≤ -5)) ∧
    (generate_lane (-5) lane5 1).waypoints.map Waypoint.velocity = [0, 0, 0, 0] ∧
    (pySlice path5 1 (1 + LOOKAHEAD_WPS)).map Waypoint.velocity = [10, 10, 10, 10] := by
  have hcond : ¬ ((-5 : ℤ) = -1 ∨ ((1 + LOOKAHEAD_WPS : ℕ) : ℤ) ≤ -5) := by
    norm_num [LOOKAHEAD_WPS]
  refine ⟨⟨Or.inl (by norm_num), hcond⟩, ?_, rfl⟩
  have hgen : generate_lane (-5) lane5 1
      = ⟨0, decelerate_waypoints BUFFER (-5) [P 1, P 2, P 3, P 4] 1⟩ := by
    show (if (-5 : ℤ) = -1 ∨ ((1 + LOOKAHEAD_WPS : ℕ) : ℤ) ≤ (-5 : ℤ) then
        (⟨0, pySlice lane5.waypoints 1 (1 + LOOKAHEAD_WPS)⟩ : Lane)
      else ⟨0, decelerate_waypoints BUFFER (-5) (pySlice lane5.waypoints 1 (1 + LOOKAHEAD_WPS)) 1⟩)
        = ⟨0, decelerate_waypoints BUFFER (-5) [P 1, P 2, P 3, P 4] 1⟩
    rw [if_neg hcond]
    rfl
  rw [hgen]
  have hvel : ∀ i, decelVel BUFFER (-5) [P 1, P 2, P 3, P 4] 1 i = 0 := by
    intro i
    refine decelVel_past BUFFER (-5) _ 1 i ?_
    rw [show ((-5 : ℤ) - ((1 : ℕ) : ℤ) - BUFFER).toNat = 0 from rfl]
    exact Nat.zero_le i
  have hmap : (decelerate_waypoints BUFFER (-5) [P 1, P 2, P 3, P 4] 1).map Waypoint.velocity
      = [min (decelVel BUFFER (-5) [P 1, P 2, P 3, P 4] 1 0) 10,
         min (decelVel BUFFER (-5) [P 1, P 2, P 3, P 4] 1 1) 10,
         min (decelVel BUFFER (-5) [P 1, P 2, P 3, P 4] 1 2) 10,
         min (decelVel BUFFER (-5) [P 1, P 2, P 3, P 4] 1 3) 10] := rfl
  show (decelerate_waypoints BUFFER (-5) [P 1, P 2, P 3, P 4] 1).map Waypoint.velocity
      = [0, 0, 0, 0]
  rw [hmap, hvel 0, hvel 1, hvel 2, hvel 3]
  norm_num

/-- Claim C9 counterexample: with original speeds `[1, 10, 10, -10]`, stop
line 5 and localized index 0 (stop offset 3, an applied-braking window since
`5 ≠ -1` and `5 < 0 + LOOKAHEAD_WPS`), the output speeds increase from window
position 0 to 1 (`1 < sqrt 2`), and the point at the stop offset receives
speed `-10 ≠ 0` — refuting both claimed properties. -/
theorem braking_monotone_counterexample :
    ((5 : ℤ) ≠ -1 ∧ (5 : ℤ) < ((0 + LOOKAHEAD_WPS : ℕ) : ℤ)) ∧
    (1 : ℕ) ≤ ((5 : ℤ) - ((0 : ℕ) : ℤ) - BUFFER).toNat ∧
    getVel cexD 0 < getVel cexD 1 ∧
    ((5 : ℤ) - ((0 : ℕ) : ℤ) - BUFFER).toNat ≤ 3 ∧
    getVel cexD 3 ≠ 0 := by
  refine ⟨⟨by norm_num, by norm_num [LOOKAHEAD_WPS]⟩, by decide, ?_, by decide, ?_⟩
  · rw [getVel_cexD_0, getVel_cexD_1]
    exact one_lt_sqrt2
  · rw [getVel_cexD_3]
    norm_num

/-- Claim C9 amended: for every window whose original speeds are nonnegative
and non-increasing along the window, the braking outputs are non-increasing
toward the stop offset (for `i ≤ j ≤ stopOffset` with `j` in range,
`out[j] ≤ out[i]`), and every in-range point at or beyond the stop offset
receives output speed 0. -/
theorem braking_monotone_amended (stopline : ℤ) (closest : ℕ) (w : List Waypoint)
    (hnn : ∀ k, k < w.length → 0 ≤ getVel w k)
    (hmono : ∀ k l, k ≤ l → l < w.length → getVel w l ≤ getVel w k) :
    (∀ i j, i ≤ j → j ≤ (stopline - (closest : ℤ) - BUFFER).toNat → j < w.length →
       getVel (decelerate_waypoints BUFFER stopline w closest) j
         ≤ getVel (decelerate_waypoints BUFFER stopline w closest) i) ∧
    (∀ i, (stopline - (closest : ℤ) - BUFFER).toNat ≤ i → i < w.length →
       getVel (decelerate_waypoints BUFFER stopline w closest) i = 0) := by
  constructor
  · intro i j hij hjs hjlen
    have hilen : i < w.length := lt_of_le_of_lt hij hjlen
    rw [getVel_decelerate _ _ _ _ _ hilen, getVel_decelerate _ _ _ _ _ hjlen,
      decelVel_eq_snap, decelVel_eq_snap]
    apply min_le_min
    · apply snap_mono
      apply Real.sqrt_le_sqrt
      have hdist : distance w j (stopline - (closest : ℤ) - BUFFER).toNat
          ≤ distance w i (stopline - (closest : ℤ) - BUFFER).toNat := by
        rw [distance_eq_arcLength, distance_eq_arcLength]
        exact arcLength_anti w i j _ hij hjs
      exact mul_le_mul_of_nonneg_left hdist (by norm_num [MAX_DECEL])
    · exact hmono i j hij hjlen
  · intro i his hilen
    rw [getVel_decelerate _ _ _ _ _ hilen, decelVel_past _ _ _ _ _ his]
    exact min_eq_left (hnn i hilen)

/-- Witness for C9 at a constant-speed window: stop line 5, localized index
0, stop offset 3; positions 0 and 1 and the stop-offset point 3. -/
theorem braking_monotone_amended_witness :
    getVel (decelerate_waypoints BUFFER 5 monoW 0) 1
      ≤ getVel (decelerate_waypoints BUFFER 5 monoW 0) 0 ∧
    getVel (decelerate_waypoints BUFFER 5 monoW 0) 3 = 0 := by
  have hlen : monoW.length = 4 := rfl
  have hnn : ∀ k, k < monoW.length → 0 ≤ getVel monoW k := by
    intro k hk
    rw [hlen] at hk
    rw [getVel_monoW k hk]
    norm_num
  have hmono : ∀ k l, k ≤ l → l < monoW.length → getVel monoW l ≤ getVel monoW k := by
    intro k l hkl hl
    rw [hlen] at hl
    rw [getVel_monoW l hl, getVel_monoW k (lt_of_le_of_lt hkl hl)]
  constructor
  · exact (braking_monotone_amended 5 0 monoW hnn hmono).1 0 1 (by norm_num) (by decide)
      (by rw [hlen]; norm_num)
  · exact (braking_monotone_amended 5 0 monoW hnn hmono).2 3 (by decide)
      (by rw [hlen]; norm_num)
